import Mathlib

/-!
Verification development for the x84 BBS `lightbar` selector widget
(`bbs/lightbar.py`) and the companion line editor (`bbs/input.py`).

The Python classes are shallowly embedded: the mutable instance attributes
of `Lightbar` become a record, the property setters (`vitem_idx`,
`vitem_shift`) become explicit state-transforming functions that reproduce
the "record previous value and set the moved flag when the value changes"
behaviour, Python `while` loops become well-founded recursion, and Python
list indexing (which raises `IndexError` out of range and wraps negative
indices) becomes an `Option`-returning lookup.

Parts of the repository that the source imports but that are external to
these two files (`bbs.ansiwin`, `bbs.session`, `bbs.output`) are modelled
from the spec where they matter and are marked as such in doc comments:
`visible_height` / `visible_bottom` come from the window geometry, the
render primitives are abstracted to render instructions (window-relative
row plus highlight/normal/fill), and the terminal key constants are opaque
strings.
-/

/-- Entries of the lightbar content list: the source stores unicode
strings. -/
abbrev Entry := String

/-- Keysets are Python dictionaries mapping an action name to the list of
keys bound to it; modelled as an association list to keep the dictionary
`KeyError` behaviour observable. -/
abbrev KeysetDict := List (String × List String)

/-- Dictionary lookup: `d[k]` returning `none` on a missing key (which in
Python raises `KeyError`). -/
def dictGet (d : KeysetDict) (k : String) : Option (List String) :=
  (d.find? (fun p => p.1 == k)).map (fun p => p.2)

/-- Total variant of `dictGet` used where the source only ever looks up
keys that are present (`process_keystroke`). -/
def keysOf (d : KeysetDict) (k : String) : List String :=
  match dictGet d k with
  | some l => l
  | none => []

/-- Mutation `d[k].append v` of a keyset dictionary, failing with the
missing key name when `k` is absent (Python `KeyError`). -/
def dictAppend (d : KeysetDict) (k : String) (v : String) :
    Except String KeysetDict :=
  match dictGet d k with
  | some _ => .ok (d.map (fun p => if p.1 == k then (p.1, p.2 ++ [v]) else p))
  | none => .error k

/-- The module-level `NETHACK_KEYSET` dictionary of `bbs/lightbar.py`. -/
def NETHACK_KEYSET : KeysetDict :=
  [ ("home", ["y"]),
    ("end", ["n"]),
    ("pgup", ["h"]),
    ("pgdown", ["l"]),
    ("up", ["k"]),
    ("down", ["j"]),
    ("exit", ["q"]) ]

/-- State of a `Lightbar` instance: the `_vitem_*` attributes, the `_moved`
and `_quit` flags, the content list and the installed keyset.
`visible_height` is modelled from the spec: it is supplied by the
`bbs.ansiwin.AnsiWindow` base class (not part of these sources) as a
positive integer derived from the window geometry. -/
structure Lightbar where
  vitem_idx : Int
  vitem_lastidx : Int
  vitem_shift : Int
  vitem_lastshift : Int
  moved : Bool
  quit : Bool
  content : List Entry
  keyset : KeysetDict
  visible_height : Int
deriving Repr, DecidableEq

/-- Modelled from the spec: `visible_bottom` comes from the missing
`AnsiWindow` base class; the spec's *Down* transition compares
`selected_row + 1` against `visible_height`, and `full_render` emits one
instruction per visible row, so `visible_bottom` is the visible height. -/
def visible_bottom (s : Lightbar) : Int :=
  s.visible_height

/-- Property `index`: absolute selection index `vitem_shift + vitem_idx`. -/
def lbIndex (s : Lightbar) : Int :=
  s.vitem_shift + s.vitem_idx

/-- Property setter for `vitem_idx`: when the value changes, record the
previous value in `_vitem_lastidx` and set the moved flag. -/
def set_vitem_idx (s : Lightbar) (value : Int) : Lightbar :=
  if s.vitem_idx ≠ value then
    { s with vitem_lastidx := s.vitem_idx, vitem_idx := value, moved := true }
  else s

/-- Property setter for `vitem_shift`: when the value changes, record the
previous value in `_vitem_lastshift` and set the moved flag. -/
def set_vitem_shift (s : Lightbar) (value : Int) : Lightbar :=
  if s.vitem_shift ≠ value then
    { s with vitem_lastshift := s.vitem_shift, vitem_shift := value, moved := true }
  else s

/-- First statement of `_chk_bounds`: if the window is shifted and the
selection is out of range of the list, scroll to the last page and move
the selection toward the end of the screen. -/
def chkFirst (s : Lightbar) : Lightbar :=
  if s.vitem_shift ≠ 0 ∧ lbIndex s + 1 > (s.content.length : Int) then
    set_vitem_idx
      (set_vitem_shift s ((s.content.length : Int) - s.visible_height + 1))
      (s.visible_height - 2)
  else s

/-- First `while` loop of `_chk_bounds`: while shifted and the bottom-most
item is beyond visible range, shift one line up, keeping the lightbar
position. -/
def chkLoop1 (s : Lightbar) : Lightbar :=
  if h : s.vitem_shift ≠ 0 ∧
      s.vitem_shift + s.visible_height - 1 > (s.content.length : Int) then
    chkLoop1
      (set_vitem_idx (set_vitem_shift s (s.vitem_shift - 1))
        ((set_vitem_shift s (s.vitem_shift - 1)).vitem_idx + 1))
  else s
termination_by (s.vitem_shift + s.visible_height - 1 - s.content.length).toNat
decreasing_by
  simp only [set_vitem_idx, set_vitem_shift]
  split_ifs <;> simp <;> omega

/-- Second `while` loop of `_chk_bounds`: truncate the selection to the
last item when the window is not shiftable. -/
def chkLoop2 (s : Lightbar) : Lightbar :=
  if h : s.vitem_idx > 0 ∧ lbIndex s ≥ (s.content.length : Int) then
    chkLoop2 (set_vitem_idx s (s.vitem_idx - 1))
  else s
termination_by s.vitem_idx.toNat
decreasing_by
  simp only [set_vitem_idx]
  split_ifs <;> simp <;> omega

/-- Method `_chk_bounds`: shift pages and selection until a selection is
within bounds. -/
def _chk_bounds (s : Lightbar) : Lightbar :=
  chkLoop2 (chkLoop1 (chkFirst s))

/-- Property setter for `position`: assign `vitem_idx` then `vitem_shift`
through their setters, then run `_chk_bounds`. -/
def position_set (s : Lightbar) (p : Int × Int) : Lightbar :=
  _chk_bounds (set_vitem_shift (set_vitem_idx s p.1) p.2)

/-- Method `update`: replace the content of the lightbar with a unicode
list (`None` defaults to a one-element list holding the empty string), then
reassign `position` with the current pair, which re-normalizes through
`_chk_bounds`.  (In the source this method is erroneously decorated as a
property; its body is what is modelled.) -/
def update (s : Lightbar) (unicodelist : Option (List Entry)) : Lightbar :=
  let s1 : Lightbar := { s with content := unicodelist.getD [""] }
  position_set s1 (s1.vitem_idx, s1.vitem_shift)

/-- Method `move_home`. -/
def move_home (s : Lightbar) : Lightbar :=
  if ¬ (s.vitem_idx = 0 ∧ s.vitem_shift = 0) then
    set_vitem_shift (set_vitem_idx s 0) 0
  else s

/-- Method `move_end`. -/
def move_end (s : Lightbar) : Lightbar :=
  if (s.content.length : Int) < s.visible_height then
    set_vitem_idx s ((s.content.length : Int) - 1)
  else
    set_vitem_idx (set_vitem_shift s ((s.content.length : Int) - s.visible_height))
      (s.visible_height - 1)

/-- Method `_up` (the *Up* transition). -/
def _up (s : Lightbar) : Lightbar :=
  if 0 = lbIndex s then s
  else if s.vitem_idx ≥ 1 then set_vitem_idx s (s.vitem_idx - 1)
  else if s.vitem_shift > 0 then set_vitem_shift s (s.vitem_shift - 1)
  else s

/-- Method `_pagedown` (the *Page down* transition). -/
def _pagedown (s : Lightbar) : Lightbar :=
  if (s.content.length : Int) < s.visible_height then
    set_vitem_idx s ((s.content.length : Int) - 1)
  else if s.vitem_shift + s.visible_height <
      (s.content.length : Int) - s.visible_height then
    set_vitem_shift s (s.vitem_shift + s.visible_height)
  else if s.vitem_shift ≠ (s.content.length : Int) - s.visible_height then
    set_vitem_shift s ((s.content.length : Int) - s.visible_height)
  else move_end s

/-- Method `_pageup` (the *Page up* transition); the leading
non-exclusive `if` resets `vitem_idx` first when the content is shorter
than the window. -/
def _pageup (s : Lightbar) : Lightbar :=
  let s1 : Lightbar :=
    if (s.content.length : Int) < s.visible_height - 1 then set_vitem_idx s 0
    else s
  if s1.vitem_shift - s1.visible_height > 0 then
    set_vitem_shift s1 (s1.vitem_shift - s1.visible_height)
  else if s1.vitem_shift > 0 then set_vitem_shift s1 0
  else move_home s1

/-- Method `move_down`. -/
def move_down (s : Lightbar) : Lightbar :=
  if lbIndex s ≥ (s.content.length : Int) then s
  else if s.vitem_idx + 1 < visible_bottom s then
    set_vitem_idx s (s.vitem_idx + 1)
  else if s.vitem_idx < (s.content.length : Int) then
    set_vitem_shift s (s.vitem_shift + 1)
  else s

/-- Method `process_keystroke`: reset `_moved`, then dispatch on the first
keyset list containing the key.  The source dispatches the pgup, pgdown
and up actions to `self.move_pageup` / `self.move_pagedown` /
`self.move_up`, names not defined in these sources; modelled from the
spec as the *Page up* / *Page down* / *Up* transitions, which the
source's `_pageup` / `_pagedown` / `_up` implement.  Every mover returns
the empty render string, so only the resulting state is returned. -/
def process_keystroke (s : Lightbar) (key : String) : Lightbar :=
  let s0 : Lightbar := { s with moved := false }
  if (keysOf s0.keyset "home").contains key then move_home s0
  else if (keysOf s0.keyset "end").contains key then move_end s0
  else if (keysOf s0.keyset "pgup").contains key then _pageup s0
  else if (keysOf s0.keyset "pgdown").contains key then _pagedown s0
  else if (keysOf s0.keyset "up").contains key then _up s0
  else if (keysOf s0.keyset "down").contains key then move_down s0
  else if (keysOf s0.keyset "exit").contains key then { s0 with quit := true }
  else s0

/-- Python list indexing `l[i]`: a non-negative index must be below the
length, a negative index wraps once from the end; anything else raises
`IndexError`, modelled as `none`. -/
def pyGet (l : List Entry) (i : Int) : Option Entry :=
  if 0 ≤ i then l.get? i.toNat
  else if 0 ≤ i + (l.length : Int) then l.get? (i + (l.length : Int)).toNat
  else none

/-- Property `selection`: `self.content[self.index]`. -/
def selection (s : Lightbar) : Option Entry :=
  pyGet s.content (lbIndex s)

/-- The selector invariant stated by the spec: the scroll offset is
non-negative and, whenever content is non-empty, the selected row is a
valid window row and the absolute index addresses a content item. -/
def LBInv (s : Lightbar) : Prop :=
  0 ≤ s.vitem_shift ∧
    (s.content ≠ [] →
      0 ≤ s.vitem_idx ∧ s.vitem_idx < s.visible_height ∧
        lbIndex s < (s.content.length : Int))

/-- The attribute state installed by `Lightbar.__init__` before it calls
`init_keystrokes` (the geometry is held by the window base class; only the
derived `visible_height` is carried, modelled from the spec). -/
def initState (visible_height : Int) : Lightbar :=
  { vitem_idx := 0, vitem_lastidx := 0, vitem_shift := 0, vitem_lastshift := 0,
    moved := false, quit := false, content := [], keyset := NETHACK_KEYSET,
    visible_height := visible_height }

/-- Named key constants exposed by the terminal of the session collaborator
(modelled from the spec as opaque strings); `KEY_KEY_UP` reproduces the
attribute name the source asks for. -/
structure TermKeys where
  KEY_HOME : String
  KEY_END : String
  KEY_PPAGE : String
  KEY_NPAGE : String
  KEY_KEY_UP : String
  KEY_DOWN : String
  KEY_EXIT : String

/-- Method `init_keystrokes`: install `NETHACK_KEYSET` and append the
terminal's key constants to the bound lists, propagating the Python
`KeyError` of a missing dictionary key as the failing key name. -/
def init_keystrokes (t : TermKeys) : Except String KeysetDict := do
  let ks := NETHACK_KEYSET
  let ks ← dictAppend ks "home" t.KEY_HOME
  let ks ← dictAppend ks "end" t.KEY_END
  let ks ← dictAppend ks "pageup" t.KEY_PPAGE
  let ks ← dictAppend ks "pagedown" t.KEY_NPAGE
  let ks ← dictAppend ks "up" t.KEY_KEY_UP
  let ks ← dictAppend ks "down" t.KEY_DOWN
  let ks ← dictAppend ks "exit" t.KEY_EXIT
  pure ks

/-- Constructor `Lightbar.__init__`: initialize the attribute state, then
run `init_keystrokes`, which may fail with a `KeyError`. -/
def construct (visible_height : Int) (t : TermKeys) : Except String Lightbar :=
  match init_keystrokes t with
  | .error k => .error k
  | .ok ks => .ok { initState visible_height with keyset := ks }

/-- Abstract render instructions, modelled from the spec's render
contract: an instruction designates a window-relative row drawn either as
content (highlighted or normal) or as filler glyphs when the row is
beyond the content length.  The byte-level primitives (`pos`, `glyphs`,
`colors`) belong to the external `AnsiWindow` / terminal collaborators. -/
inductive RenderInstr where
  | fill : Int → RenderInstr
  | row : Int → Bool → RenderInstr
deriving Repr, DecidableEq

/-- Python `range(n)` over an integer bound, as a list of integers. -/
def intRange (n : Int) : List Int :=
  (List.range n.toNat).map Int.ofNat

/-- Method `refresh_row`: the instruction for window-relative row `ypos` —
filler if the addressed entry is past the content, otherwise the entry
drawn highlighted exactly when it is the selected index. -/
def refresh_row (s : Lightbar) (ypos : Int) : RenderInstr :=
  if s.vitem_shift + ypos ≥ (s.content.length : Int) then .fill ypos
  else .row ypos (s.vitem_shift + ypos = lbIndex s)

/-- Method `refresh`: one instruction per row of `range(visible_bottom)`. -/
def refresh' (s : Lightbar) : List RenderInstr :=
  (intRange (visible_bottom s)).map (refresh_row s)

/-- Method `refresh_quick`: a full refresh after a page shift
(`_vitem_lastshift` differing from `vitem_shift` and not `-1`), otherwise,
when moved and `_vitem_lastidx` is not `-1`, the previously recorded row
followed by the selected row, otherwise nothing. -/
def refresh_quick (s : Lightbar) : List RenderInstr :=
  if s.vitem_lastshift ≠ s.vitem_shift ∧ s.vitem_lastshift ≠ -1 then
    refresh' s
  else if s.moved then
    if s.vitem_lastidx ≠ -1 then
      [refresh_row s s.vitem_lastidx, refresh_row s s.vitem_idx]
    else []
  else []

/-- Keystroke payloads handled by `readlineevent`: the terminal's named
keycodes, other integer keycodes, and character data. -/
inductive Key where
  | KEY_EXIT : Key
  | KEY_ENTER : Key
  | KEY_BACKSPACE : Key
  | code : Int → Key
  | ch : Char → Key
deriving Repr, DecidableEq

/-- Events produced by the session collaborator: keystroke input or some
other registered event kind carrying pass-through data. -/
inductive Ev where
  | input : Key → Ev
  | other : String → String → Ev
deriving Repr, DecidableEq

/-- Output emitted through `echo`: literal text or the BEL alert. -/
inductive Echo where
  | text : String → Echo
  | bel : Echo
deriving Repr, DecidableEq

/-- Return value of `readlineevent`: the (possibly cancelled) buffer, the
event kind, and the payload (`'\n'` on enter, pass-through data, else
none). -/
structure RLResult where
  value : Option String
  event : String
  data : Option String
deriving Repr, DecidableEq

/-- Predicate `curses.ascii.isprint`: ASCII codes 32 through 126. -/
def isprint (c : Char) : Bool :=
  32 ≤ c.toNat ∧ c.toNat ≤ 126

/-- String repetition `s * n` of Python. -/
def strRepeat (x : String) (n : Nat) : String :=
  match n with
  | 0 => ""
  | n + 1 => x ++ strRepeat x n

/-- Main loop of `readlineevent` over the pending event stream, returning
the emitted echoes and the result (`none` when the stream is exhausted and
the source would keep blocking on `read_event`). -/
def rlLoop (width : Int) (hidden : String) (paddchar : String)
    (interactive : Bool) (silent : Bool) :
    String → List Ev → List Echo × Option RLResult
  | _, [] => ([], none)
  | value, Ev.other kind data :: _ =>
    ([], some { value := some value, event := kind, data := some data })
  | value, Ev.input k :: rest =>
    match k with
    | Key.KEY_EXIT => ([], some { value := none, event := "input", data := none })
    | Key.KEY_ENTER =>
      ([], some { value := some value, event := "input", data := some "\n" })
    | Key.KEY_BACKSPACE =>
      if value.length > 0 then
        let value' := value.dropRight 1
        let e := Echo.text ("\x08" ++ paddchar ++ "\x08")
        if interactive then
          ([e], some { value := some value', event := "input", data := none })
        else
          let r := rlLoop width hidden paddchar interactive silent value' rest
          (e :: r.1, r.2)
      else if interactive then
        ([], some { value := some value, event := "input", data := none })
      else rlLoop width hidden paddchar interactive silent value rest
    | Key.code _ =>
      if interactive then
        ([], some { value := some value, event := "input", data := none })
      else rlLoop width hidden paddchar interactive silent value rest
    | Key.ch c =>
      if (value.length : Int) < width ∧ isprint c then
        let value' := value.push c
        let e := if hidden ≠ "" then Echo.text hidden else Echo.text c.toString
        if interactive then
          ([e], some { value := some value', event := "input", data := none })
        else
          let r := rlLoop width hidden paddchar interactive silent value' rest
          (e :: r.1, r.2)
      else if ¬ silent then
        if interactive then
          ([Echo.bel], some { value := some value, event := "input", data := none })
        else
          let r := rlLoop width hidden paddchar interactive silent value rest
          (Echo.bel :: r.1, r.2)
      else if interactive then
        ([], some { value := some value, event := "input", data := none })
      else rlLoop width hidden paddchar interactive silent value rest

/-- Function `readlineevent` of `bbs/input.py`: echo the initial value
(masked when `hidden` is non-empty), then run the keystroke loop. -/
def readlineevent (width : Int) (value : String) (hidden : String)
    (paddchar : String) (interactive : Bool) (silent : Bool)
    (events : List Ev) : List Echo × Option RLResult :=
  let initEcho : List Echo :=
    if hidden = "" ∧ value ≠ "" then [Echo.text value]
    else if value ≠ "" then [Echo.text (strRepeat hidden value.length)]
    else []
  let r := rlLoop width hidden paddchar interactive silent value events
  (initEcho ++ r.1, r.2)

/-- Convenience constructor for concrete selector states (quit is false and
the default keyset is installed, as after `__init__`). -/
def mkLB (idx lastidx shift lastshift : Int) (mvd : Bool) (c : List Entry)
    (vh : Int) : Lightbar :=
  { vitem_idx := idx, vitem_lastidx := lastidx, vitem_shift := shift,
    vitem_lastshift := lastshift, moved := mvd, quit := false, content := c,
    keyset := NETHACK_KEYSET, visible_height := vh }

/-- Reachable trace: a 5-row selector, content replaced by a 3-item list,
then three Down keystrokes. -/
def c1Trace : Lightbar :=
  process_keystroke (process_keystroke (process_keystroke
    (update (initState 5) (some ["a", "b", "c"])) "j") "j") "j"

/-- Reachable trace: a 5-row selector, content replaced by a 3-item list,
then two Down keystrokes (which select the last item). -/
def c6Trace : Lightbar :=
  process_keystroke (process_keystroke
    (update (initState 5) (some ["a", "b", "c"])) "j") "j"

/-- Content-shrink scenario: a selector over 10 items with a 5-row window,
selected at absolute index 9 (`vitem_shift = 5`, `vitem_idx = 4`), whose
content is replaced by a 3-item list. -/
def c3After : Lightbar :=
  update (mkLB 4 3 5 4 false ["0", "1", "2", "3", "4", "5", "6", "7", "8", "9"] 5)
    (some ["x", "y", "z"])

/-- Keystroke events for the plain editor scenario: a, b, c, Enter. -/
def c9events : List Ev :=
  [Ev.input (Key.ch 'a'), Ev.input (Key.ch 'b'), Ev.input (Key.ch 'c'),
    Ev.input Key.KEY_ENTER]

/-- Keystroke events for the editor boundary scenario: a, b, c, d, Enter. -/
def c8events : List Ev :=
  [Ev.input (Key.ch 'a'), Ev.input (Key.ch 'b'), Ev.input (Key.ch 'c'),
    Ev.input (Key.ch 'd'), Ev.input Key.KEY_ENTER]

/-- The moved flag produced by `move_home` reflects exactly whether the
position pair changed. -/
theorem moved_iff_move_home (s : Lightbar) (h : s.moved = false) :
    (move_home s).moved = true ↔
      ((move_home s).vitem_idx ≠ s.vitem_idx ∨ (move_home s).vitem_shift ≠ s.vitem_shift) := by
  simp only [move_home, lbIndex, set_vitem_idx, set_vitem_shift]
  split_ifs <;> simp [h] <;> omega

/-- The moved flag produced by `move_end` reflects exactly whether the
position pair changed. -/
theorem moved_iff_move_end (s : Lightbar) (h : s.moved = false) :
    (move_end s).moved = true ↔
      ((move_end s).vitem_idx ≠ s.vitem_idx ∨ (move_end s).vitem_shift ≠ s.vitem_shift) := by
  simp only [move_end, lbIndex, set_vitem_idx, set_vitem_shift]
  split_ifs <;> simp [h] <;> omega

/-- The moved flag produced by `_up` reflects exactly whether the position
pair changed. -/
theorem moved_iff_up (s : Lightbar) (h : s.moved = false) :
    (_up s).moved = true ↔
      ((_up s).vitem_idx ≠ s.vitem_idx ∨ (_up s).vitem_shift ≠ s.vitem_shift) := by
  simp only [_up, lbIndex, set_vitem_idx, set_vitem_shift]
  split_ifs <;> simp [h]

/-- The moved flag produced by `_pagedown` reflects exactly whether the
position pair changed. -/
theorem moved_iff_pagedown (s : Lightbar) (h : s.moved = false) :
    (_pagedown s).moved = true ↔
      ((_pagedown s).vitem_idx ≠ s.vitem_idx ∨ (_pagedown s).vitem_shift ≠ s.vitem_shift) := by
  simp only [_pagedown, move_end, lbIndex, set_vitem_idx, set_vitem_shift]
  split_ifs <;> simp [h] <;> omega

/-- The moved flag produced by `_pageup` reflects exactly whether the
position pair changed. -/
theorem moved_iff_pageup (s : Lightbar) (h : s.moved = false) :
    (_pageup s).moved = true ↔
      ((_pageup s).vitem_idx ≠ s.vitem_idx ∨ (_pageup s).vitem_shift ≠ s.vitem_shift) := by
  simp only [_pageup, move_home, lbIndex, set_vitem_idx, set_vitem_shift]
  split_ifs <;> simp [h] <;> omega

/-- The moved flag produced by `move_down` reflects exactly whether the
position pair changed. -/
theorem moved_iff_move_down (s : Lightbar) (h : s.moved = false) :
    (move_down s).moved = true ↔
      ((move_down s).vitem_idx ≠ s.vitem_idx ∨ (move_down s).vitem_shift ≠ s.vitem_shift) := by
  simp only [move_down, visible_bottom, lbIndex, set_vitem_idx, set_vitem_shift]
  split_ifs <;> simp [h]

/-- Under the default keyset, the key "j" reaches exactly the Down branch
of `process_keystroke`. -/
theorem process_j_eq_move_down (s : Lightbar) (hks : s.keyset = NETHACK_KEYSET) :
    process_keystroke s "j" = move_down { s with moved := false } := by
  simp only [process_keystroke, hks, keysOf, dictGet, NETHACK_KEYSET]
  rfl

/-- Length of a full refresh: one instruction per visible row. -/
theorem refresh_len (s : Lightbar) :
    (refresh' s).length = (visible_bottom s).toNat := by
  unfold refresh' intRange
  rw [List.length_map, List.length_map, List.length_range]

/-- Replacing the content of a freshly initialized 5-row selector with a
3-item list leaves the position at the origin. -/
theorem update_init_abc :
    update (initState 5) (some ["a", "b", "c"]) = mkLB 0 0 0 0 false ["a", "b", "c"] 5 := by
  simp [update, position_set, _chk_bounds, chkFirst, chkLoop1, chkLoop2,
    set_vitem_idx, set_vitem_shift, lbIndex, initState, mkLB]

/-- C1: the claimed invariant (scroll offset non-negative and, on non-empty
content, selected row within the window and absolute index below the
content length) is violated on a reachable state: after replacing the
content of a 5-row selector with a 3-item list, three Down keystrokes
drive the absolute index to 3, equal to the content length, because
`move_down` only stops once the index is already past the last item. -/
theorem C1_down_escapes_invariant :
    lbIndex c1Trace = (c1Trace.content.length : Int) ∧ ¬ LBInv c1Trace := by
  unfold c1Trace
  rw [update_init_abc]
  unfold LBInv lbIndex
  decide

/-- C2: Down is not a no-op at the last item.  On a selector over 3 items
with a 5-row window selected at absolute index 2 (the last item), a Down
keystroke increments `vitem_idx` to 3, moving the absolute index to the
content length, instead of leaving the state unchanged. -/
theorem C2_down_at_last_item_moves :
    lbIndex (mkLB 2 1 0 0 false ["a", "b", "c"] 5) =
      ((["a", "b", "c"] : List Entry).length : Int) - 1 ∧
    process_keystroke (mkLB 2 1 0 0 false ["a", "b", "c"] 5) "j" =
      mkLB 3 2 0 0 true ["a", "b", "c"] 5 := by
  decide

/-- C3: starting from a selector over 10 content items with a 5-row window
at absolute index 9 (`vitem_shift = 5`, `vitem_idx = 4`), replacing the
content with a 3-item list leaves the absolute index at 2, the new last
item. -/
theorem C3_update_shrink_clamps_to_last :
    lbIndex c3After = 2 ∧ c3After.content.length = 3 := by
  have h : c3After = mkLB 3 4 (-1) 5 true ["x", "y", "z"] 5 := by
    unfold c3After
    simp [update, position_set, _chk_bounds, chkFirst, chkLoop1, chkLoop2,
      set_vitem_idx, set_vitem_shift, lbIndex, mkLB]
  rw [h]
  decide

/-- C4: after every call to `process_keystroke`, the moved flag is true
exactly when the call changed `vitem_idx` or `vitem_shift`. -/
theorem C4_moved_iff_position_changed (s : Lightbar) (key : String) :
    (process_keystroke s key).moved = true ↔
      ((process_keystroke s key).vitem_idx ≠ s.vitem_idx ∨
        (process_keystroke s key).vitem_shift ≠ s.vitem_shift) := by
  simp only [process_keystroke]
  split_ifs <;>
    first
      | exact moved_iff_move_home _ rfl
      | exact moved_iff_move_end _ rfl
      | exact moved_iff_pageup _ rfl
      | exact moved_iff_pagedown _ rfl
      | exact moved_iff_up _ rfl
      | exact moved_iff_move_down _ rfl
      | simp

/-- C5 counterexample: the claim fails at two explicit states.  First, with
a stale recorded page shift (`_vitem_lastshift = 0` while `vitem_shift = 1`,
left over from an earlier command), a Down that changes only `vitem_idx`
makes `refresh_quick` emit a full 3-row render, not two instructions.
Second, a Down taken at the last item (the C2 defect) makes the second
emitted instruction a filler row, not the newly selected row highlighted. -/
theorem C5_cex_refresh_quick :
    ((process_keystroke (mkLB 1 2 1 0 false ["0", "1", "2", "3", "4", "5", "6", "7", "8", "9"] 3) "j").vitem_idx ≠ 1 ∧
      (process_keystroke (mkLB 1 2 1 0 false ["0", "1", "2", "3", "4", "5", "6", "7", "8", "9"] 3) "j").vitem_shift = 1 ∧
      (refresh_quick (process_keystroke (mkLB 1 2 1 0 false ["0", "1", "2", "3", "4", "5", "6", "7", "8", "9"] 3) "j")).length = 3) ∧
    ((process_keystroke (mkLB 2 1 0 0 false ["a", "b", "c"] 5) "j").vitem_idx ≠ 2 ∧
      (process_keystroke (mkLB 2 1 0 0 false ["a", "b", "c"] 5) "j").vitem_shift = 0 ∧
      refresh_quick (process_keystroke (mkLB 2 1 0 0 false ["a", "b", "c"] 5) "j") =
        [RenderInstr.row 2 false, RenderInstr.fill 3]) := by
  decide

/-- C5 amended: under the default keyset, for a state whose recorded
previous scroll offset is not stale (`_vitem_lastshift = vitem_shift`) and
whose selected row is non-negative, a Down that changed `vitem_idx` makes
`refresh_quick` emit exactly two instructions — the previously selected
row normal, and the newly selected row highlighted provided the new
absolute index is still within the content (a filler row otherwise); and
for any state with `vitem_shift ≠ -1`, a Down that changed `vitem_shift`
makes `refresh_quick` emit the complete full-window render, one
instruction per visible row. -/
theorem C5_refresh_quick_down_amended (s : Lightbar) (hks : s.keyset = NETHACK_KEYSET) :
    (s.vitem_lastshift = s.vitem_shift → 0 ≤ s.vitem_idx →
      (process_keystroke s "j").vitem_idx ≠ s.vitem_idx →
      refresh_quick (process_keystroke s "j") =
        [RenderInstr.row s.vitem_idx false,
          if s.vitem_shift + s.vitem_idx + 1 ≥ (s.content.length : Int) then
            RenderInstr.fill (s.vitem_idx + 1)
          else RenderInstr.row (s.vitem_idx + 1) true]) ∧
    ((process_keystroke s "j").vitem_shift ≠ s.vitem_shift → s.vitem_shift ≠ -1 →
      refresh_quick (process_keystroke s "j") = refresh' (process_keystroke s "j") ∧
        (refresh' (process_keystroke s "j")).length = s.visible_height.toNat) := by
  rw [process_j_eq_move_down s hks]
  constructor
  · intro hls hi0 hchg
    simp only [move_down, visible_bottom, lbIndex, set_vitem_idx, set_vitem_shift] at hchg ⊢
    split_ifs at hchg ⊢ with h1 h2 h3 h4 h5 <;> try simp_all
    · simp only [refresh_quick, refresh_row, lbIndex]
      split_ifs <;> simp_all <;> omega
    · simp only [refresh_quick, refresh_row, lbIndex]
      split_ifs <;> simp_all <;> omega
  · intro hchg hm1
    simp only [move_down, visible_bottom, lbIndex, set_vitem_idx, set_vitem_shift] at hchg ⊢
    split_ifs at hchg ⊢ with h1 h2 h3 <;> try simp_all
    · constructor
      · simp only [refresh_quick]
        split_ifs <;> simp_all
      · rw [refresh_len]
        rfl

/-- C5 witness: both parts of the amended statement at concrete states — a
Down within the first page of a 3-item list emits the two-row redraw, and
a page-crossing Down on a 6-item list with a 3-row window emits the
full 3-instruction render. -/
theorem C5_refresh_quick_down_amended_witness :
    refresh_quick (process_keystroke (mkLB 0 0 0 0 false ["a", "b", "c"] 5) "j") =
      [RenderInstr.row 0 false, RenderInstr.row 1 true] ∧
    (refresh_quick (process_keystroke (mkLB 2 1 2 2 false ["a", "b", "c", "d", "e", "f"] 3) "j") =
      refresh' (process_keystroke (mkLB 2 1 2 2 false ["a", "b", "c", "d", "e", "f"] 3) "j") ∧
      (refresh' (process_keystroke (mkLB 2 1 2 2 false ["a", "b", "c", "d", "e", "f"] 3) "j")).length = 3) := by
  constructor
  · have h := (C5_refresh_quick_down_amended (mkLB 0 0 0 0 false ["a", "b", "c"] 5) rfl).1
      rfl (by decide) (by decide)
    simpa using h
  · exact (C5_refresh_quick_down_amended (mkLB 2 1 2 2 false ["a", "b", "c", "d", "e", "f"] 3) rfl).2
      (by decide) (by decide)

/-- C6: from the reachable state selecting the last item of a 3-item list
(absolute index 2 after two Down keystrokes), a further Down does not
leave the state unchanged: it moves the selection out of bounds. -/
theorem C6_further_down_changes_state :
    lbIndex c6Trace = (c6Trace.content.length : Int) - 1 ∧
    process_keystroke c6Trace "j" ≠ c6Trace := by
  unfold c6Trace
  rw [update_init_abc]
  unfold lbIndex
  decide

/-- C7: querying `selection` on empty content fails (returns no value, the
Python `IndexError`), and on non-empty content satisfying the invariant it
returns the content item at index `vitem_shift + vitem_idx`. -/
theorem C7_selection_empty_fails_else_indexed (s : Lightbar) :
    (s.content = [] → selection s = none) ∧
    (s.content ≠ [] → LBInv s →
      selection s = s.content.get? (lbIndex s).toNat ∧ (selection s).isSome = true) := by
  constructor
  · intro h
    simp [selection, pyGet, h]
  · intro hne hinv
    obtain ⟨hsh, hrest⟩ := hinv
    obtain ⟨hi0, hiv, hlen⟩ := hrest hne
    have h0 : 0 ≤ lbIndex s := by unfold lbIndex; omega
    have hlt : (lbIndex s).toNat < s.content.length := by
      unfold lbIndex at *
      omega
    constructor
    · simp [selection, pyGet, h0]
    · simp only [selection, pyGet, if_pos h0]
      rw [List.get?_eq_get hlt]
      rfl

/-- C7 witness: on a fresh empty selector the selection is unavailable, and
on a selector over three items at absolute index 2 it is the third item. -/
theorem C7_selection_witness :
    selection (mkLB 0 0 0 0 false [] 5) = none ∧
    selection (mkLB 1 0 1 0 false ["a", "b", "c"] 5) = some "c" := by
  constructor
  · exact (C7_selection_empty_fails_else_indexed (mkLB 0 0 0 0 false [] 5)).1 rfl
  · have h := (C7_selection_empty_fails_else_indexed
      (mkLB 1 0 1 0 false ["a", "b", "c"] 5)).2 (by decide)
      (by unfold LBInv lbIndex; decide)
    rw [h.1]
    decide

/-- C8: the editor with width 3 receiving a, b, c, d then Enter returns the
value "abc" (the fourth character is rejected by the full buffer); with
silent off a BEL alert is emitted for the rejected keystroke, with silent
on nothing is emitted for it. -/
theorem C8_editor_boundary_bel :
    readlineevent 3 "" "" " " false false c8events =
      ([Echo.text "a", Echo.text "b", Echo.text "c", Echo.bel],
        some { value := some "abc", event := "input", data := some "\n" }) ∧
    readlineevent 3 "" "" " " false true c8events =
      ([Echo.text "a", Echo.text "b", Echo.text "c"],
        some { value := some "abc", event := "input", data := some "\n" }) := by
  decide

/-- C9: the editor with empty initial value, width 5 and no mask, receiving
a, b, c then Enter, returns the triple ("abc", "input", newline). -/
theorem C9_editor_returns_abc_newline :
    (readlineevent 5 "" "" " " false false c9events).2 =
      some { value := some "abc", event := "input", data := some "\n" } := by
  decide

/-- C10: constructing a `Lightbar` always fails with the dictionary
key-lookup error for "pageup": `init_keystrokes` installs
`NETHACK_KEYSET`, which has keys pgup and pgdown but not pageup, so the
constructor fails for every window geometry and every terminal keyset. -/
theorem C10_construct_always_keyerror (visible_height : Int) (t : TermKeys) :
    construct visible_height t = Except.error "pageup" := rfl
